import Mathlib

/-!
Verification of the DTLS/SRTP secure-media core of the sipsorcery-media
repository. Definitions are a shallow embedding of `src/src/Srtp.cpp`,
`src/src/DtlsHandshake.cpp`, `src/SIPSorcery.Media/Dtls.cpp` and their
headers. Byte buffers are `List Nat`, machine integers are `Nat`/`Int`,
fallible operations return `Except`/`Option`. The libsrtp and OpenSSL
primitives that the wrappers call are not part of the repository source;
where a claim depends on them they are modelled from the specification
text and marked `Modelled from the spec:` in their doc comments.
-/

/-- Key length for the negotiated SRTP_AES128_CM_SHA1_80 profile:
`SRTP_AES_KEY_KEY_LEN = SRTP_AES_128_KEY_LEN` in `Srtp.h`. -/
def SRTP_AES_KEY_KEY_LEN : Nat := 16

/-- Salt length `SRTP_SALT_LEN` used by `Srtp.cpp` for the key material split. -/
def SRTP_SALT_LEN : Nat := 14

/-- Anti-replay window size set on every `srtp_policy_t` in `Srtp.cpp`. -/
def SRTP_ANTI_REPLAY_WINDOW_SIZE : Nat := 128

/-- Total length of the exported key material block, the size of
`dtls_buffer[SRTP_AES_KEY_KEY_LEN * 2 + SRTP_SALT_LEN * 2]` in `Srtp.cpp`. -/
def dtlsBufferLen : Nat := SRTP_AES_KEY_KEY_LEN * 2 + SRTP_SALT_LEN * 2

/-- Fixed exporter label `const char * label = "EXTRACTOR-dtls_srtp"` in `Srtp.cpp`. -/
def extractorLabel : String := "EXTRACTOR-dtls_srtp"

/-- The exporter label as a byte list, as passed to the key material export call. -/
def extractorLabelBytes : List Nat := extractorLabel.data.map Char.toNat

/-- First memcpy of `Srtp.cpp`: `key_client` is the first 16 bytes of the block. -/
def keyClientOf (buf : List Nat) : List Nat := buf.take SRTP_AES_KEY_KEY_LEN

/-- Second memcpy of `Srtp.cpp`: `key_server` is bytes 16..31 of the block. -/
def keyServerOf (buf : List Nat) : List Nat :=
  (buf.drop SRTP_AES_KEY_KEY_LEN).take SRTP_AES_KEY_KEY_LEN

/-- Third memcpy of `Srtp.cpp`: `salt_client` is bytes 32..45 of the block. -/
def saltClientOf (buf : List Nat) : List Nat :=
  (buf.drop (SRTP_AES_KEY_KEY_LEN + SRTP_AES_KEY_KEY_LEN)).take SRTP_SALT_LEN

/-- Fourth memcpy of `Srtp.cpp`: `salt_server` is bytes 46..59 of the block. -/
def saltServerOf (buf : List Nat) : List Nat :=
  (buf.drop (SRTP_AES_KEY_KEY_LEN + SRTP_AES_KEY_KEY_LEN + SRTP_SALT_LEN)).take SRTP_SALT_LEN

/-- Assembly of `client_write_key` in `Srtp.cpp`: client key followed by client salt. -/
def clientWriteKey (buf : List Nat) : List Nat := keyClientOf buf ++ saltClientOf buf

/-- Assembly of `server_write_key` in `Srtp.cpp`: server key followed by server salt. -/
def serverWriteKey (buf : List Nat) : List Nat := keyServerOf buf ++ saltServerOf buf

/-- Error codes surfaced by the SRTP packet operations. They mirror the distinct
libsrtp statuses the wrappers return: `srtp_err_status_auth_fail`,
`srtp_err_status_replay_fail` (duplicate in window), `srtp_err_status_replay_old`
(below the window) and "no matching stream context". -/
inductive SrtpErr where
  | authFail
  | replayFail
  | replayOld
  | noContext
  deriving DecidableEq

/-- Verdict of the anti-replay database check. -/
inductive ReplayVerdict where
  | fresh
  | dup
  | tooOld
  deriving DecidableEq

/-- The fields of `srtp_policy_t` that `Srtp.cpp` sets: the key (key material
half), `window_size`, `allow_repeat_tx` and the direction
(`ssrc_any_inbound` vs `ssrc_any_outbound`). -/
structure SrtpPolicy where
  key : List Nat
  windowSize : Nat
  allowRepeatTx : Bool
  inbound : Bool
  deriving DecidableEq

/-- Modelled from the spec: libsrtp's anti-replay database (the "bounded sliding
record of recently seen sequence numbers"), kept as the highest index seen plus
the set of accepted indices. libsrtp itself is an external library, not under
the repository source tree. -/
structure ReplayDb where
  maxIdx : Option Nat
  seen : List Nat
  deriving DecidableEq

/-- A replay database with nothing received yet, the state of a fresh session. -/
def ReplayDb.empty : ReplayDb := { maxIdx := none, seen := [] }

/-- Record an index as received: it becomes part of the seen set and pushes the
window edge forward when it is the new maximum. -/
def ReplayDb.add (db : ReplayDb) (idx : Nat) : ReplayDb :=
  { maxIdx := some (match db.maxIdx with | none => idx | some m => max m idx)
  , seen := idx :: db.seen }

/-- Modelled from the spec: the replay check consulted before accepting a packet.
An index beyond the current maximum is fresh; an index more than the window size
behind the maximum is too old; an index inside the window that was already seen
is a duplicate; otherwise it is fresh. -/
def replayCheck (db : ReplayDb) (ws idx : Nat) : ReplayVerdict :=
  match db.maxIdx with
  | none => ReplayVerdict.fresh
  | some m =>
    if m < idx then ReplayVerdict.fresh
    else if ws ≤ m - idx then ReplayVerdict.tooOld
    else if idx ∈ db.seen then ReplayVerdict.dup
    else ReplayVerdict.fresh

/-- One SRTP session as created by `srtp_create` from the policy: the policy plus
the per-direction replay state for the RTP flavor and, independently, for the
RTCP flavor, and the count of packets protected so far. -/
structure SrtpSession where
  policy : SrtpPolicy
  rtpDb : ReplayDb
  rtcpDb : ReplayDb
  txCount : Nat
  deriving DecidableEq

/-- A plaintext packet: its sequence number (index) and payload bytes. -/
structure RtpPacket where
  seq : Nat
  payload : List Nat
  deriving DecidableEq

/-- A protected packet: sequence number, ciphertext and authentication tag. -/
structure SrtpPacket where
  seq : Nat
  ct : List Nat
  tag : Nat
  deriving DecidableEq

/-- Byte mixing step used by the concrete pseudo-random functions below. -/
def mixByte (acc b : Nat) : Nat := (acc * 131 + b + 7) % 65536

/-- Modelled from the spec: a deterministic keyed pseudo-random function over a
byte list, standing in for the AES/HMAC primitives of libsrtp and OpenSSL,
which are external to the repository source. Only determinism in the key and
index matters for the claims, not cryptographic strength. -/
def prfNat (key : List Nat) (idx pos : Nat) : Nat :=
  (key.foldl mixByte (idx * 257 + pos * 31 + 1)) % 256

/-- Keystream byte for a given key, packet flavor (0 = RTP, 1 = RTCP), packet
index and byte position. Modelled from the spec: the per-packet keystream of
the AES counter mode cipher. -/
def keystreamAt (key : List Nat) (flavor idx pos : Nat) : Nat :=
  prfNat key (2 * idx + flavor) pos

/-- XOR a byte list against the keystream starting at byte position `pos`.
Applying it twice with the same parameters restores the input, which is the
counter-mode encrypt/decrypt pair. -/
def xorStream (key : List Nat) (flavor idx : Nat) : Nat → List Nat → List Nat
  | _, [] => []
  | pos, b :: rest => (b ^^^ keystreamAt key flavor idx pos) :: xorStream key flavor idx (pos + 1) rest

/-- Modelled from the spec: the 80-bit authentication tag appended by the
SRTP_AES128_CM_SHA1_80 profile, a deterministic function of key, flavor,
index and ciphertext. -/
def authTag (key : List Nat) (flavor idx : Nat) (ct : List Nat) : Nat :=
  (ct.foldl mixByte (key.foldl mixByte (flavor * 11 + idx + 3))) % (2 ^ 80)

/-- Modelled from the spec: the per-packet protect transform shared by
`srtp_protect` and `srtp_protect_rtcp`: encrypt the payload with the keystream
and append the authentication tag. -/
def srtpSeal (flavor : Nat) (key : List Nat) (p : RtpPacket) : SrtpPacket :=
  let ct := xorStream key flavor p.seq 0 p.payload
  { seq := p.seq, ct := ct, tag := authTag key flavor p.seq ct }

/-- Modelled from the spec: the per-packet unprotect transform shared by
`srtp_unprotect` and `srtp_unprotect_rtcp`: consult the replay database first
(reporting the too-old and duplicate cases with their distinct statuses), then
verify the authentication tag, then decrypt and record the index. Failures
return an error value and leave the database unchanged. -/
def srtpOpen (flavor : Nat) (key : List Nat) (db : ReplayDb) (ws : Nat) (p : SrtpPacket) :
    Except SrtpErr (ReplayDb × RtpPacket) :=
  match replayCheck db ws p.seq with
  | ReplayVerdict.tooOld => Except.error SrtpErr.replayOld
  | ReplayVerdict.dup => Except.error SrtpErr.replayFail
  | ReplayVerdict.fresh =>
    if authTag key flavor p.seq p.ct = p.tag then
      Except.ok (db.add p.seq, { seq := p.seq, payload := xorStream key flavor p.seq 0 p.ct })
    else Except.error SrtpErr.authFail

/-- The `srtp_policy_t` that `Srtp::Srtp(Dtls^, bool)` builds from the exported
key material block: `policy.key = (isClient) ? client_write_key : server_write_key`
and `policy.ssrc.type = (isClient) ? ssrc_any_inbound : ssrc_any_outbound`, with
`window_size = SRTP_ANTI_REPLAY_WINDOW_SIZE` and `allow_repeat_tx = 0`. -/
def srtpPolicyFromDtls (buf : List Nat) (isClient : Bool) : SrtpPolicy :=
  { key := if isClient then clientWriteKey buf else serverWriteKey buf
  , windowSize := SRTP_ANTI_REPLAY_WINDOW_SIZE
  , allowRepeatTx := false
  , inbound := isClient }

/-- A freshly created session for a policy, as produced by `srtp_create`. -/
def srtpSessionFromPolicy (pol : SrtpPolicy) : SrtpSession :=
  { policy := pol, rtpDb := ReplayDb.empty, rtcpDb := ReplayDb.empty, txCount := 0 }

/-- `Srtp::ProtectRTP`: forwards the buffer to `srtp_protect` on the session.
Sessions whose single stream template is inbound-only have no matching outbound
stream context; otherwise the packet is sealed and the send counter advances. -/
def ProtectRTP (s : SrtpSession) (p : RtpPacket) : Except SrtpErr (SrtpSession × SrtpPacket) :=
  if s.policy.inbound then Except.error SrtpErr.noContext
  else Except.ok ({ s with txCount := s.txCount + 1 }, srtpSeal 0 s.policy.key p)

/-- `Srtp::UnprotectRTP`: forwards the buffer to `srtp_unprotect` on the session,
which consults and updates the RTP replay database. -/
def UnprotectRTP (s : SrtpSession) (p : SrtpPacket) : Except SrtpErr (SrtpSession × RtpPacket) :=
  if s.policy.inbound then
    match srtpOpen 0 s.policy.key s.rtpDb s.policy.windowSize p with
    | Except.ok (db2, q) => Except.ok ({ s with rtpDb := db2 }, q)
    | Except.error e => Except.error e
  else Except.error SrtpErr.noContext

/-- `Srtp::ProtectRTCP`: forwards the buffer to `srtp_protect_rtcp`. -/
def ProtectRTCP (s : SrtpSession) (p : RtpPacket) : Except SrtpErr (SrtpSession × SrtpPacket) :=
  if s.policy.inbound then Except.error SrtpErr.noContext
  else Except.ok ({ s with txCount := s.txCount + 1 }, srtpSeal 1 s.policy.key p)

/-- `Srtp::UnprotectRTCP`: forwards the buffer to `srtp_unprotect_rtcp`, which
uses the RTCP replay database, independent of the RTP one. -/
def UnprotectRTCP (s : SrtpSession) (p : SrtpPacket) : Except SrtpErr (SrtpSession × RtpPacket) :=
  if s.policy.inbound then
    match srtpOpen 1 s.policy.key s.rtcpDb s.policy.windowSize p with
    | Except.ok (db2, q) => Except.ok ({ s with rtcpDb := db2 }, q)
    | Except.error e => Except.error e
  else Except.error SrtpErr.noContext

/-- The observable state of a DTLS session as far as the key exporter is
concerned: whether the handshake has completed, and the session secret the
export derives from. -/
structure DtlsSession where
  completed : Bool
  masterSecret : List Nat
  deriving DecidableEq

/-- Modelled from the spec: the deterministic label-based expansion of the
session secret performed by the OpenSSL keying material exporter. -/
def prfExpand (secret label : List Nat) (len : Nat) : List Nat :=
  (List.range len).map (fun i => prfNat (secret ++ label) 0 i)

/-- Modelled from the spec: `SSL_export_keying_material`. It succeeds only on a
completed session (otherwise it returns failure, the `res != 1` branch of
`Srtp.cpp`), derives the block deterministically from the session secret and
label, and does not mutate the session, which is returned alongside. -/
def sslExportKeyingMaterial (d : DtlsSession) (label : List Nat) (len : Nat) :
    Option (List Nat) × DtlsSession :=
  (if d.completed then some (prfExpand d.masterSecret label len) else none, d)

/-- The managed `Srtp` object: its `_session` pointer, which stays null when the
constructor could not create a libsrtp session, and the console output the
constructor produced. -/
structure SrtpObject where
  session : Option SrtpSession
  log : List String
  deriving DecidableEq

/-- `Srtp::Srtp(Dtls^, bool)`: export the keying material block with the fixed
label and length; on failure print the error and leave `_session` null; on
success slice the block, build the policy for the requested direction and
create the session. -/
def srtpFromDtls (d : DtlsSession) (isClient : Bool) : SrtpObject :=
  match (sslExportKeyingMaterial d extractorLabelBytes dtlsBufferLen).1 with
  | none => { session := none, log := ["Export of SSL key information failed."] }
  | some buf =>
    { session := some (srtpSessionFromPolicy (srtpPolicyFromDtls buf isClient)), log := [] }

/-- The constructor's behavior as seen through its exception channel: a managed
constructor reports failure to its caller only by throwing, which this embedding
would render as `Except.error`. `Srtp::Srtp(Dtls^, bool)` has no throw site, so
every path returns `Except.ok`. -/
def srtpFromDtlsE (d : DtlsSession) (isClient : Bool) : Except String SrtpObject :=
  Except.ok (srtpFromDtls d isClient)

/-- Calling `ProtectRTP` on a constructed `Srtp` object: when `_session` is null
the call dereferences a null pointer and has no defined result (`none`). -/
def ProtectRTPOnObject (o : SrtpObject) (p : RtpPacket) :
    Option (Except SrtpErr (SrtpSession × SrtpPacket)) :=
  match o.session with
  | none => none
  | some s => some (ProtectRTP s p)

/-- The cookie constant `#define DTLS_COOKIE "sipsorcery"` as its
`sizeof`-sized byte image (ten characters plus the terminating `0`), which is
exactly what `generate_cookie` copies out. -/
def DTLS_COOKIE : List Nat := [115, 105, 112, 115, 111, 114, 99, 101, 114, 121, 0]

/-- `generate_cookie` from `Dtls.cpp`/`DtlsHandshake.cpp`: writes the constant
cookie bytes and sets the cookie length to `sizeof(DTLS_COOKIE)`. -/
def generate_cookie : List Nat := DTLS_COOKIE

/-- `verify_cookie` from `Dtls.cpp`/`DtlsHandshake.cpp`: returns `1` for every
candidate cookie (the body is the single line `return 1;` under the comment
"Accept any cookie."). -/
def verify_cookie (cookie : List Nat) (cookieLen : Nat) : Nat := 1

/-- The responder-side configuration each handshake entry point installs before
waiting for a peer: whether cookie callbacks are registered, whether the
pre-handshake cookie listen gate (`DTLSv1_listen`) runs, and whether the
per-peer `SSL` object is already allocated during setup, before any datagram
has been received. -/
structure ResponderConfig where
  cookieVerify : Option (List Nat → Bool)
  listenBeforeAccept : Bool
  sslAllocatedAtSetup : Bool

/-- `DtlsHandshake::DoHandshakeAsServer`: the cookie generate/verify callbacks
and the `DTLSv1_listen` call are commented out ("Don't need to use a handshake
cookie at this point."), and `SSL_new` runs during setup. -/
def dtlsHandshakeResponder : ResponderConfig :=
  { cookieVerify := none, listenBeforeAccept := false, sslAllocatedAtSetup := true }

/-- `Dtls::DoHandshake`: installs `generate_cookie`/`verify_cookie` as the
cookie callbacks, calls `DTLSv1_listen`, and allocates the `SSL` object during
setup before the listen. -/
def dtlsResponder : ResponderConfig :=
  { cookieVerify := some (fun c => verify_cookie c c.length != 0)
  , listenBeforeAccept := true
  , sslAllocatedAtSetup := true }

/-- Whether a handshake-initiation datagram carrying the given cookie (or none)
makes it past the responder's cookie gate into the handshake proper. With no
verify callback installed there is no gate; with one installed, a cookie-less
initiation is answered by a challenge, and a cookie-bearing one is admitted
exactly when the callback accepts it. -/
def initiationCommitsContext (r : ResponderConfig) (cookie : Option (List Nat)) : Bool :=
  match r.cookieVerify, cookie with
  | none, _ => true
  | some _, none => false
  | some v, some c => v c

/-- The two peer-verification modes the sources select from:
`SSL_VERIFY_NONE` and `SSL_VERIFY_PEER`. -/
inductive VerifyMode where
  | verifyNone
  | verifyPeer
  deriving DecidableEq

/-- The peer-certificate verification configuration of an `SSL_CTX`: the mode
and the optional verification callback. -/
structure SslCtxConfig where
  verifyMode : VerifyMode
  verifyCb : Option (Nat → Nat → Nat)

/-- `krx_ssl_verify_peer` from `Dtls.cpp`/`DtlsHandshake.cpp`: returns `1`
(accept) for every certificate, regardless of the chain-validation result `ok`
passed in by the library. -/
def krx_ssl_verify_peer (ok : Nat) (ctx : Nat) : Nat := 1

/-- `SSL_CTX_set_verify`: replaces the context's verification mode and callback. -/
def SSL_CTX_set_verify (cfg : SslCtxConfig) (mode : VerifyMode)
    (cb : Option (Nat → Nat → Nat)) : SslCtxConfig :=
  { cfg with verifyMode := mode, verifyCb := cb }

/-- A fresh `SSL_CTX`: OpenSSL's default verification mode is
`SSL_VERIFY_NONE` with no callback. -/
def initialSslCtxConfig : SslCtxConfig := { verifyMode := VerifyMode.verifyNone, verifyCb := none }

/-- The verification configuration `Dtls::DoHandshake` leaves in place: it first
calls `SSL_CTX_set_verify(SSL_VERIFY_PEER, krx_ssl_verify_peer)` and later
overrides it with `SSL_CTX_set_verify(SSL_VERIFY_NONE, nullptr)`. -/
def dtlsDoHandshakeVerifyConfig : SslCtxConfig :=
  SSL_CTX_set_verify
    (SSL_CTX_set_verify initialSslCtxConfig VerifyMode.verifyPeer (some krx_ssl_verify_peer))
    VerifyMode.verifyNone none

/-- The verification configuration of `DtlsHandshake::DoHandshakeAsServer`: a
single `SSL_CTX_set_verify(SSL_VERIFY_NONE, nullptr)` (the `SSL_VERIFY_PEER`
variant exists only as a commented-out line). -/
def dtlsHandshakeServerVerifyConfig : SslCtxConfig :=
  SSL_CTX_set_verify initialSslCtxConfig VerifyMode.verifyNone none

/-- The verification configuration of `DtlsHandshake::DoHandshakeAsClient`:
likewise a single `SSL_CTX_set_verify(SSL_VERIFY_NONE, nullptr)`. -/
def dtlsHandshakeClientVerifyConfig : SslCtxConfig :=
  SSL_CTX_set_verify initialSslCtxConfig VerifyMode.verifyNone none

/-- The `krx` struct of `Dtls.h`/`DtlsHandshake.h`: the SSL context, connection
and BIO pointers, each possibly null. -/
structure Krx where
  ctx : Option Nat
  ssl : Option Nat
  bio : Option Nat
  deriving DecidableEq

/-- A managed DTLS wrapper object reduced to its `_k` state pointer. -/
structure DtlsObj where
  k : Option Krx
  deriving DecidableEq

/-- `Dtls::Shutdown` / `DtlsHandshake::Shutdown`: when `_k` is non-null, free
and null the context, shut down, free and null the SSL connection, then null
`_k` itself; when `_k` is already null, do nothing. -/
def Shutdown (o : DtlsObj) : DtlsObj :=
  match o.k with
  | none => o
  | some _ => { k := none }

/-- `Dtls::GetSSL` / `DtlsHandshake::GetSSL`: returns `_k->ssl` when `_k` is
non-null and `nullptr` otherwise. -/
def GetSSL (o : DtlsObj) : Option Nat :=
  match o.k with
  | some kr => kr.ssl
  | none => none

/-- The destructor `~Dtls()` / `~DtlsHandshake()`: it calls `Shutdown`. -/
def dtlsDestructor (o : DtlsObj) : DtlsObj := Shutdown o

/-- Sample 60-byte key material block used in concrete counterexamples. -/
def keyMaterialSample : List Nat := List.range 60

/-- Sample plaintext RTP packet used in concrete witnesses. -/
def rtpPacketSample : RtpPacket := { seq := 201, payload := [10, 20] }

/-- Sample plaintext RTCP packet used in concrete witnesses. -/
def rtcpPacketSample : RtpPacket := { seq := 5, payload := [1, 2, 3] }

/-- Sample send-direction session with a raw key, as built by
`Srtp::Srtp(key, false)`. -/
def sendSessionSample : SrtpSession :=
  srtpSessionFromPolicy
    { key := [1, 2, 3], windowSize := 128, allowRepeatTx := false, inbound := false }

/-- Sample receive-direction session with the same raw key, as built by
`Srtp::Srtp(key, true)`. -/
def recvSessionSample : SrtpSession :=
  srtpSessionFromPolicy
    { key := [1, 2, 3], windowSize := 128, allowRepeatTx := false, inbound := true }

/-- Sample receive session whose replay window has already advanced to index 200. -/
def replaySessionSample : SrtpSession :=
  { policy := { key := [1, 2, 3], windowSize := 128, allowRepeatTx := false, inbound := true }
  , rtpDb := { maxIdx := some 200, seen := [200] }
  , rtcpDb := ReplayDb.empty
  , txCount := 0 }

/-- Sample protected packet whose index 10 lies far below the advanced window. -/
def oldPacketSample : SrtpPacket := { seq := 10, ct := [5], tag := 0 }

/-- Sample follow-up plaintext packet with the next fresh index. -/
def continuePacketSample : RtpPacket := { seq := 202, payload := [7] }

/-- Sample DTLS session that has completed its handshake. -/
def completedSessionSample : DtlsSession := { completed := true, masterSecret := [3, 1, 4, 1, 5] }

/-- Sample DTLS session that has not completed its handshake. -/
def notCompletedSession : DtlsSession := { completed := false, masterSecret := [3, 1, 4, 1, 5] }

/-- Slicing helper: the first 16 bytes of a block assembled from four fields of
the source's fixed lengths are the client key, and bytes 32..45 are the client
salt, so `client_write_key` is client key followed by client salt. -/
theorem clientWriteKey_append (kc ks sc ss : List Nat)
    (hkc : kc.length = SRTP_AES_KEY_KEY_LEN) (hks : ks.length = SRTP_AES_KEY_KEY_LEN)
    (hsc : sc.length = SRTP_SALT_LEN) :
    clientWriteKey (kc ++ ks ++ sc ++ ss) = kc ++ sc := by
  have hTake : (kc ++ ks ++ sc ++ ss).take SRTP_AES_KEY_KEY_LEN = kc := by
    rw [show kc ++ ks ++ sc ++ ss = kc ++ (ks ++ (sc ++ ss)) from by simp]
    exact List.take_left' hkc
  have hlen2 : (kc ++ ks).length = SRTP_AES_KEY_KEY_LEN + SRTP_AES_KEY_KEY_LEN := by
    rw [List.length_append, hkc, hks]
  have hDrop : (kc ++ ks ++ sc ++ ss).drop (SRTP_AES_KEY_KEY_LEN + SRTP_AES_KEY_KEY_LEN) =
      sc ++ ss := by
    rw [show kc ++ ks ++ sc ++ ss = (kc ++ ks) ++ (sc ++ ss) from by simp]
    exact List.drop_left' hlen2
  unfold clientWriteKey keyClientOf saltClientOf
  rw [hTake, hDrop, List.take_left' hsc]

/-- Slicing helper: bytes 16..31 of the assembled block are the server key and
bytes 46..59 the server salt, so `server_write_key` is server key followed by
server salt. -/
theorem serverWriteKey_append (kc ks sc ss : List Nat)
    (hkc : kc.length = SRTP_AES_KEY_KEY_LEN) (hks : ks.length = SRTP_AES_KEY_KEY_LEN)
    (hsc : sc.length = SRTP_SALT_LEN) (hss : ss.length = SRTP_SALT_LEN) :
    serverWriteKey (kc ++ ks ++ sc ++ ss) = ks ++ ss := by
  have hDrop1 : (kc ++ ks ++ sc ++ ss).drop SRTP_AES_KEY_KEY_LEN = ks ++ (sc ++ ss) := by
    rw [show kc ++ ks ++ sc ++ ss = kc ++ (ks ++ (sc ++ ss)) from by simp]
    exact List.drop_left' hkc
  have hTake1 : (ks ++ (sc ++ ss)).take SRTP_AES_KEY_KEY_LEN = ks :=
    List.take_left' hks
  have hlen3 : (kc ++ ks ++ sc).length =
      SRTP_AES_KEY_KEY_LEN + SRTP_AES_KEY_KEY_LEN + SRTP_SALT_LEN := by
    rw [List.length_append, List.length_append, hkc, hks, hsc]
  have hDrop2 : (kc ++ ks ++ sc ++ ss).drop
      (SRTP_AES_KEY_KEY_LEN + SRTP_AES_KEY_KEY_LEN + SRTP_SALT_LEN) = ss :=
    List.drop_left' hlen3
  have hTakeSS : ss.take SRTP_SALT_LEN = ss := by
    rw [← hss]; exact List.take_length ss
  unfold serverWriteKey keyServerOf saltServerOf
  rw [hDrop1, hTake1, hDrop2, hTakeSS]

/-- Applying the keystream XOR twice with the same parameters restores the input. -/
theorem xorStream_xorStream (key : List Nat) (flavor idx : Nat) (l : List Nat) :
    ∀ pos, xorStream key flavor idx pos (xorStream key flavor idx pos l) = l := by
  induction l with
  | nil => intro pos; rfl
  | cons b rest ih =>
    intro pos
    simp [xorStream, Nat.xor_assoc, ih (pos + 1)]

/-- The sequence number of a sealed packet is the plaintext packet's. -/
theorem srtpSeal_seq (flavor : Nat) (key : List Nat) (p : RtpPacket) :
    (srtpSeal flavor key p).seq = p.seq := rfl

/-- Opening a just-sealed packet with the same key and flavor on a database for
which its index is fresh succeeds and returns the original plaintext. -/
theorem srtpOpen_srtpSeal (flavor : Nat) (key : List Nat) (db : ReplayDb) (ws : Nat)
    (p : RtpPacket) (h : replayCheck db ws p.seq = ReplayVerdict.fresh) :
    srtpOpen flavor key db ws (srtpSeal flavor key p) = Except.ok (db.add p.seq, p) := by
  cases p with
  | mk seq payload =>
    simp only [srtpSeal, srtpOpen] at h ⊢
    rw [h]
    simp [xorStream_xorStream]

/-- Opening a packet whose index the replay database reports as a duplicate
fails with the replay-specific status. -/
theorem srtpOpen_of_dup (flavor : Nat) (key : List Nat) (db : ReplayDb) (ws : Nat)
    (p2 : SrtpPacket) (h : replayCheck db ws p2.seq = ReplayVerdict.dup) :
    srtpOpen flavor key db ws p2 = Except.error SrtpErr.replayFail := by
  simp [srtpOpen, h]

/-- Opening a packet whose index the replay database reports as below the window
fails with the out-of-window status. -/
theorem srtpOpen_of_tooOld (flavor : Nat) (key : List Nat) (db : ReplayDb) (ws : Nat)
    (p2 : SrtpPacket) (h : replayCheck db ws p2.seq = ReplayVerdict.tooOld) :
    srtpOpen flavor key db ws p2 = Except.error SrtpErr.replayOld := by
  simp [srtpOpen, h]

/-- After an index that was fresh is recorded, checking it again reports a
duplicate (for a positive window size). -/
theorem replayCheck_add_self (db : ReplayDb) (ws idx : Nat) (hws : 0 < ws)
    (h : replayCheck db ws idx = ReplayVerdict.fresh) :
    replayCheck (db.add idx) ws idx = ReplayVerdict.dup := by
  rcases db with ⟨mi, seen⟩
  cases mi with
  | none =>
    simp only [ReplayDb.add, replayCheck]
    rw [if_neg (Nat.lt_irrefl idx), if_neg (show ¬ ws ≤ idx - idx by omega)]
    simp
  | some m =>
    simp only [replayCheck] at h
    simp only [ReplayDb.add, replayCheck]
    by_cases hm : m < idx
    · rw [Nat.max_eq_right (Nat.le_of_lt hm)]
      rw [if_neg (Nat.lt_irrefl idx), if_neg (show ¬ ws ≤ idx - idx by omega)]
      simp
    · rw [Nat.max_eq_left (Nat.le_of_not_lt hm)]
      rw [if_neg hm] at h
      have hw : ¬ ws ≤ m - idx := by
        intro hw
        rw [if_pos hw] at h
        exact ReplayVerdict.noConfusion h
      rw [if_neg hm, if_neg hw]
      simp

/-- C1: protecting a plaintext packet on a send-direction context and
unprotecting the result on a matching receive-direction context with the same
key material returns the original plaintext bytes, independently for the RTP
flavor via `ProtectRTP`/`UnprotectRTP` and for the RTCP flavor via
`ProtectRTCP`/`UnprotectRTCP`. -/
theorem protectThenUnprotectRoundTrip (sSend sRecv : SrtpSession) (p pc : RtpPacket)
    (hkey : sSend.policy.key = sRecv.policy.key)
    (hout : sSend.policy.inbound = false)
    (hin : sRecv.policy.inbound = true)
    (hfreshRtp : replayCheck sRecv.rtpDb sRecv.policy.windowSize p.seq = ReplayVerdict.fresh)
    (hfreshRtcp : replayCheck sRecv.rtcpDb sRecv.policy.windowSize pc.seq = ReplayVerdict.fresh) :
    (ProtectRTP sSend p =
        Except.ok ({ sSend with txCount := sSend.txCount + 1 }, srtpSeal 0 sSend.policy.key p) ∧
      UnprotectRTP sRecv (srtpSeal 0 sSend.policy.key p) =
        Except.ok ({ sRecv with rtpDb := sRecv.rtpDb.add p.seq }, p)) ∧
    (ProtectRTCP sSend pc =
        Except.ok ({ sSend with txCount := sSend.txCount + 1 }, srtpSeal 1 sSend.policy.key pc) ∧
      UnprotectRTCP sRecv (srtpSeal 1 sSend.policy.key pc) =
        Except.ok ({ sRecv with rtcpDb := sRecv.rtcpDb.add pc.seq }, pc)) := by
  refine ⟨⟨?_, ?_⟩, ?_, ?_⟩
  · simp [ProtectRTP, hout]
  · rw [hkey]
    simp [UnprotectRTP, hin,
      srtpOpen_srtpSeal 0 sRecv.policy.key sRecv.rtpDb sRecv.policy.windowSize p hfreshRtp]
  · simp [ProtectRTCP, hout]
  · rw [hkey]
    simp [UnprotectRTCP, hin,
      srtpOpen_srtpSeal 1 sRecv.policy.key sRecv.rtcpDb sRecv.policy.windowSize pc hfreshRtcp]

/-- Witness for C1: the round-trip law evaluated on concrete matching
send/receive sessions and concrete RTP and RTCP packets. -/
theorem protectThenUnprotectRoundTrip_witness :
    sendSessionSample.policy.key = recvSessionSample.policy.key ∧
    sendSessionSample.policy.inbound = false ∧
    recvSessionSample.policy.inbound = true ∧
    replayCheck recvSessionSample.rtpDb recvSessionSample.policy.windowSize
      rtpPacketSample.seq = ReplayVerdict.fresh ∧
    replayCheck recvSessionSample.rtcpDb recvSessionSample.policy.windowSize
      rtcpPacketSample.seq = ReplayVerdict.fresh ∧
    ((ProtectRTP sendSessionSample rtpPacketSample =
        Except.ok ({ sendSessionSample with txCount := sendSessionSample.txCount + 1 },
          srtpSeal 0 sendSessionSample.policy.key rtpPacketSample) ∧
      UnprotectRTP recvSessionSample (srtpSeal 0 sendSessionSample.policy.key rtpPacketSample) =
        Except.ok ({ recvSessionSample with
          rtpDb := recvSessionSample.rtpDb.add rtpPacketSample.seq }, rtpPacketSample)) ∧
     (ProtectRTCP sendSessionSample rtcpPacketSample =
        Except.ok ({ sendSessionSample with txCount := sendSessionSample.txCount + 1 },
          srtpSeal 1 sendSessionSample.policy.key rtcpPacketSample) ∧
      UnprotectRTCP recvSessionSample (srtpSeal 1 sendSessionSample.policy.key rtcpPacketSample) =
        Except.ok ({ recvSessionSample with
          rtcpDb := recvSessionSample.rtcpDb.add rtcpPacketSample.seq }, rtcpPacketSample))) :=
  ⟨rfl, rfl, rfl, rfl, rfl,
    protectThenUnprotectRoundTrip sendSessionSample recvSessionSample
      rtpPacketSample rtcpPacketSample rfl rfl rfl rfl rfl⟩

/-- C2: the key material exporter of `Srtp::Srtp(Dtls^, bool)` requests a block
of total length exactly `2 * (key_length + salt_length)` under the fixed label
"EXTRACTOR-dtls_srtp", and slices it in the order key_client, key_server,
salt_client, salt_server, assembling client-write as key_client followed by
salt_client and server-write as key_server followed by salt_server. -/
theorem dtlsKeyMaterialExportLayout (kc ks sc ss : List Nat)
    (hkc : kc.length = SRTP_AES_KEY_KEY_LEN) (hks : ks.length = SRTP_AES_KEY_KEY_LEN)
    (hsc : sc.length = SRTP_SALT_LEN) (hss : ss.length = SRTP_SALT_LEN) :
    dtlsBufferLen = 2 * (SRTP_AES_KEY_KEY_LEN + SRTP_SALT_LEN) ∧
    extractorLabel = "EXTRACTOR-dtls_srtp" ∧
    clientWriteKey (kc ++ ks ++ sc ++ ss) = kc ++ sc ∧
    serverWriteKey (kc ++ ks ++ sc ++ ss) = ks ++ ss :=
  ⟨rfl, rfl, clientWriteKey_append kc ks sc ss hkc hks hsc,
    serverWriteKey_append kc ks sc ss hkc hks hsc hss⟩

/-- Witness for C2: the slicing evaluated on a concrete block assembled from
four constant fields of the profile's lengths. -/
theorem dtlsKeyMaterialExportLayout_witness :
    (List.replicate 16 1).length = SRTP_AES_KEY_KEY_LEN ∧
    (List.replicate 16 2).length = SRTP_AES_KEY_KEY_LEN ∧
    (List.replicate 14 3).length = SRTP_SALT_LEN ∧
    (List.replicate 14 4).length = SRTP_SALT_LEN ∧
    (dtlsBufferLen = 2 * (SRTP_AES_KEY_KEY_LEN + SRTP_SALT_LEN) ∧
     extractorLabel = "EXTRACTOR-dtls_srtp" ∧
     clientWriteKey (List.replicate 16 1 ++ List.replicate 16 2 ++
         List.replicate 14 3 ++ List.replicate 14 4) =
       List.replicate 16 1 ++ List.replicate 14 3 ∧
     serverWriteKey (List.replicate 16 1 ++ List.replicate 16 2 ++
         List.replicate 14 3 ++ List.replicate 14 4) =
       List.replicate 16 2 ++ List.replicate 14 4) :=
  ⟨by decide, by decide, by decide, by decide,
    dtlsKeyMaterialExportLayout (List.replicate 16 1) (List.replicate 16 2)
      (List.replicate 14 3) (List.replicate 14 4) (by decide) (by decide) (by decide) (by decide)⟩

/-- Counterexample for C3: a forged cookie of the same length as the generated
one but with different bytes is still accepted by `verify_cookie` (it returns a
nonzero success value, not false), refuting the claim that verification fails
on forged cookies. -/
theorem cookieForgedStillAccepted :
    (List.replicate 11 7).length = generate_cookie.length ∧
    List.replicate 11 7 ≠ generate_cookie ∧
    verify_cookie (List.replicate 11 7) (List.replicate 11 7).length = 1 ∧
    verify_cookie (List.replicate 11 7) (List.replicate 11 7).length ≠ 0 := by
  refine ⟨by decide, by decide, rfl, by decide⟩

/-- C3 (amended): `verify_cookie` applied to the generated cookie returns true
for the same source address, and it also returns true — a value, not an
exception — for every forged candidate cookie: the implementation accepts any
cookie. -/
theorem cookieVerifyAcceptsAll :
    verify_cookie generate_cookie generate_cookie.length = 1 ∧
    (∀ (c : List Nat) (n : Nat), verify_cookie c n = 1) :=
  ⟨rfl, fun _ _ => rfl⟩

/-- Counterexample for C4: the two sessions built from the same key material
with the two role-flag values are not mirror images. The flag-false session's
single context is send-direction keyed with the server-write half, while the
flag-true session's single context is receive-direction keyed with the
client-write half, so the keys differ, and a packet protected by the
flag-false session is rejected by the flag-true session with an
authentication failure. -/
theorem srtpRoleMirrorFails :
    (srtpPolicyFromDtls keyMaterialSample false).key ≠
      (srtpPolicyFromDtls keyMaterialSample true).key ∧
    UnprotectRTP (srtpSessionFromPolicy (srtpPolicyFromDtls keyMaterialSample true))
        (srtpSeal 0 (srtpPolicyFromDtls keyMaterialSample false).key { seq := 5, payload := [1, 2] }) =
      Except.error SrtpErr.authFail := by
  refine ⟨by decide, rfl⟩

/-- C4 (amended): the role flag selects a single directional crypto context
combining a direction with a key material half: flag true yields the
receive-direction (inbound) context backed by client-write (client key then
client salt), flag false yields the send-direction (outbound) context backed
by server-write (server key then server salt); both use the fixed window size
and forbid repeated transmission. The two sessions built from the same
material therefore use different halves and are not mirror images. -/
theorem srtpRoleSelectsHalfAndDirection (kc ks sc ss : List Nat)
    (hkc : kc.length = SRTP_AES_KEY_KEY_LEN) (hks : ks.length = SRTP_AES_KEY_KEY_LEN)
    (hsc : sc.length = SRTP_SALT_LEN) (hss : ss.length = SRTP_SALT_LEN) :
    srtpPolicyFromDtls (kc ++ ks ++ sc ++ ss) true =
      { key := kc ++ sc, windowSize := SRTP_ANTI_REPLAY_WINDOW_SIZE
      , allowRepeatTx := false, inbound := true } ∧
    srtpPolicyFromDtls (kc ++ ks ++ sc ++ ss) false =
      { key := ks ++ ss, windowSize := SRTP_ANTI_REPLAY_WINDOW_SIZE
      , allowRepeatTx := false, inbound := false } := by
  constructor
  · rw [← clientWriteKey_append kc ks sc ss hkc hks hsc]
    rfl
  · rw [← serverWriteKey_append kc ks sc ss hkc hks hsc hss]
    rfl

/-- Witness for C4 (amended): the role selection evaluated on a concrete block. -/
theorem srtpRoleSelectsHalfAndDirection_witness :
    (List.replicate 16 1).length = SRTP_AES_KEY_KEY_LEN ∧
    (List.replicate 16 2).length = SRTP_AES_KEY_KEY_LEN ∧
    (List.replicate 14 3).length = SRTP_SALT_LEN ∧
    (List.replicate 14 4).length = SRTP_SALT_LEN ∧
    (srtpPolicyFromDtls (List.replicate 16 1 ++ List.replicate 16 2 ++
        List.replicate 14 3 ++ List.replicate 14 4) true =
      { key := List.replicate 16 1 ++ List.replicate 14 3
      , windowSize := SRTP_ANTI_REPLAY_WINDOW_SIZE
      , allowRepeatTx := false, inbound := true } ∧
     srtpPolicyFromDtls (List.replicate 16 1 ++ List.replicate 16 2 ++
        List.replicate 14 3 ++ List.replicate 14 4) false =
      { key := List.replicate 16 2 ++ List.replicate 14 4
      , windowSize := SRTP_ANTI_REPLAY_WINDOW_SIZE
      , allowRepeatTx := false, inbound := false }) :=
  ⟨by decide, by decide, by decide, by decide,
    srtpRoleSelectsHalfAndDirection (List.replicate 16 1) (List.replicate 16 2)
      (List.replicate 14 3) (List.replicate 14 4) (by decide) (by decide) (by decide) (by decide)⟩

/-- C5: against a receive context, the first unprotect of a validly protected
packet succeeds, a second unprotect of the same packet fails with the
replay-specific code, a packet whose index lies below the anti-replay window
fails with the distinct out-of-window code rather than the authentication
failure code, and every such failure is an error value that leaves the session
able to accept the next fresh packet. -/
theorem unprotectReplayBehavior (s : SrtpSession) (p : RtpPacket) (q : SrtpPacket)
    (r : RtpPacket) (m : Nat)
    (hin : s.policy.inbound = true)
    (hws : 0 < s.policy.windowSize)
    (hfresh : replayCheck s.rtpDb s.policy.windowSize p.seq = ReplayVerdict.fresh)
    (hfresh2 : replayCheck (s.rtpDb.add p.seq) s.policy.windowSize r.seq = ReplayVerdict.fresh)
    (hm : s.rtpDb.maxIdx = some m)
    (hlow : q.seq + s.policy.windowSize ≤ m) :
    UnprotectRTP s (srtpSeal 0 s.policy.key p) =
      Except.ok ({ s with rtpDb := s.rtpDb.add p.seq }, p) ∧
    UnprotectRTP { s with rtpDb := s.rtpDb.add p.seq } (srtpSeal 0 s.policy.key p) =
      Except.error SrtpErr.replayFail ∧
    UnprotectRTP s q = Except.error SrtpErr.replayOld ∧
    SrtpErr.replayOld ≠ SrtpErr.authFail ∧
    UnprotectRTP { s with rtpDb := s.rtpDb.add p.seq } (srtpSeal 0 s.policy.key r) =
      Except.ok ({ s with rtpDb := (s.rtpDb.add p.seq).add r.seq }, r) := by
  have hdup : replayCheck (s.rtpDb.add p.seq) s.policy.windowSize
      (srtpSeal 0 s.policy.key p).seq = ReplayVerdict.dup := by
    rw [srtpSeal_seq]
    exact replayCheck_add_self s.rtpDb s.policy.windowSize p.seq hws hfresh
  have hold : replayCheck s.rtpDb s.policy.windowSize q.seq = ReplayVerdict.tooOld := by
    have hbody : replayCheck s.rtpDb s.policy.windowSize q.seq =
        (if m < q.seq then ReplayVerdict.fresh
         else if s.policy.windowSize ≤ m - q.seq then ReplayVerdict.tooOld
         else if q.seq ∈ s.rtpDb.seen then ReplayVerdict.dup else ReplayVerdict.fresh) := by
      simp [replayCheck, hm]
    rw [hbody, if_neg (show ¬ m < q.seq by omega),
      if_pos (show s.policy.windowSize ≤ m - q.seq by omega)]
  refine ⟨?_, ?_, ?_, by decide, ?_⟩
  · simp [UnprotectRTP, hin,
      srtpOpen_srtpSeal 0 s.policy.key s.rtpDb s.policy.windowSize p hfresh]
  · simp [UnprotectRTP, hin, srtpOpen_of_dup 0 s.policy.key (s.rtpDb.add p.seq)
      s.policy.windowSize (srtpSeal 0 s.policy.key p) hdup]
  · simp [UnprotectRTP, hin, srtpOpen_of_tooOld 0 s.policy.key s.rtpDb
      s.policy.windowSize q hold]
  · simp [UnprotectRTP, hin,
      srtpOpen_srtpSeal 0 s.policy.key (s.rtpDb.add p.seq) s.policy.windowSize r hfresh2]

/-- Witness for C5: the replay behavior evaluated on a concrete receive session
whose window has advanced to index 200, a fresh packet at 201 replayed twice, a
far-below-window packet at 10, and a follow-up fresh packet at 202. -/
theorem unprotectReplayBehavior_witness :
    replaySessionSample.policy.inbound = true ∧
    0 < replaySessionSample.policy.windowSize ∧
    replayCheck replaySessionSample.rtpDb replaySessionSample.policy.windowSize
      rtpPacketSample.seq = ReplayVerdict.fresh ∧
    replayCheck (replaySessionSample.rtpDb.add rtpPacketSample.seq)
      replaySessionSample.policy.windowSize continuePacketSample.seq = ReplayVerdict.fresh ∧
    replaySessionSample.rtpDb.maxIdx = some 200 ∧
    oldPacketSample.seq + replaySessionSample.policy.windowSize ≤ 200 ∧
    (UnprotectRTP replaySessionSample
        (srtpSeal 0 replaySessionSample.policy.key rtpPacketSample) =
      Except.ok ({ replaySessionSample with
        rtpDb := replaySessionSample.rtpDb.add rtpPacketSample.seq }, rtpPacketSample) ∧
     UnprotectRTP { replaySessionSample with
          rtpDb := replaySessionSample.rtpDb.add rtpPacketSample.seq }
        (srtpSeal 0 replaySessionSample.policy.key rtpPacketSample) =
      Except.error SrtpErr.replayFail ∧
     UnprotectRTP replaySessionSample oldPacketSample = Except.error SrtpErr.replayOld ∧
     SrtpErr.replayOld ≠ SrtpErr.authFail ∧
     UnprotectRTP { replaySessionSample with
          rtpDb := replaySessionSample.rtpDb.add rtpPacketSample.seq }
        (srtpSeal 0 replaySessionSample.policy.key continuePacketSample) =
      Except.ok ({ replaySessionSample with
        rtpDb := (replaySessionSample.rtpDb.add rtpPacketSample.seq).add
          continuePacketSample.seq }, continuePacketSample)) :=
  ⟨rfl, by decide, by decide, by decide, rfl, by decide,
    unprotectReplayBehavior replaySessionSample rtpPacketSample oldPacketSample
      continuePacketSample 200 rfl (by decide) (by decide) (by decide) rfl (by decide)⟩

/-- Counterexample for C6: the responder commits a handshake context without a
valid cookie round-trip. `DtlsHandshake::DoHandshakeAsServer` has no cookie
verify callback (the callbacks and `DTLSv1_listen` are commented out), allocates
the per-peer SSL object during setup, and admits an initiation with no cookie
at all; and `Dtls::DoHandshake`, which does install the callbacks, admits a
forged cookie that differs from the genuine one. -/
theorem responderCommitsWithoutCookie :
    initiationCommitsContext dtlsHandshakeResponder none = true ∧
    dtlsHandshakeResponder.sslAllocatedAtSetup = true ∧
    dtlsHandshakeResponder.cookieVerify = none ∧
    initiationCommitsContext dtlsResponder (some (List.replicate 11 7)) = true ∧
    List.replicate 11 7 ≠ DTLS_COOKIE :=
  ⟨rfl, rfl, rfl, rfl, by decide⟩

/-- C6 (amended): the responder does not gate handshake-context commitment on a
valid cookie round-trip. `DtlsHandshake::DoHandshakeAsServer` installs no
cookie verify callback, performs no pre-handshake listen, and allocates the
per-peer SSL context during setup before any datagram, so every initiation,
with or without a cookie, proceeds into the handshake; `Dtls::DoHandshake`
installs cookie callbacks but its verify accepts every cookie, so every
cookie-bearing initiation proceeds as well, and a source that never presents
the genuine cookie can still complete. -/
theorem responderNoCookieGate :
    dtlsHandshakeResponder.cookieVerify = none ∧
    dtlsHandshakeResponder.listenBeforeAccept = false ∧
    dtlsHandshakeResponder.sslAllocatedAtSetup = true ∧
    dtlsResponder.sslAllocatedAtSetup = true ∧
    (∀ c : Option (List Nat), initiationCommitsContext dtlsHandshakeResponder c = true) ∧
    (∀ c : List Nat, initiationCommitsContext dtlsResponder (some c) = true) := by
  refine ⟨rfl, rfl, rfl, rfl, fun c => ?_, fun c => rfl⟩
  cases c <;> rfl

/-- C7: exporting keying material from a completed session is idempotent: it
succeeds, a second export with the same label and length yields the identical
block, and the export leaves the session unchanged. -/
theorem dtlsExportIdempotent (d : DtlsSession) (label : List Nat) (len : Nat)
    (h : d.completed = true) :
    (sslExportKeyingMaterial d label len).1.isSome = true ∧
    (sslExportKeyingMaterial d label len).1 =
      (sslExportKeyingMaterial (sslExportKeyingMaterial d label len).2 label len).1 ∧
    (sslExportKeyingMaterial d label len).2 = d := by
  simp [sslExportKeyingMaterial, h]

/-- Witness for C7: idempotence of the export evaluated on a concrete completed
session with the source's label and length. -/
theorem dtlsExportIdempotent_witness :
    completedSessionSample.completed = true ∧
    ((sslExportKeyingMaterial completedSessionSample extractorLabelBytes
        dtlsBufferLen).1.isSome = true ∧
     (sslExportKeyingMaterial completedSessionSample extractorLabelBytes dtlsBufferLen).1 =
       (sslExportKeyingMaterial
         (sslExportKeyingMaterial completedSessionSample extractorLabelBytes dtlsBufferLen).2
         extractorLabelBytes dtlsBufferLen).1 ∧
     (sslExportKeyingMaterial completedSessionSample extractorLabelBytes dtlsBufferLen).2 =
       completedSessionSample) :=
  ⟨rfl, dtlsExportIdempotent completedSessionSample extractorLabelBytes dtlsBufferLen rfl⟩

/-- Counterexample for C8: strict certificate validation does not exist as a
reachable configuration. The final verify mode left in place by
`Dtls::DoHandshake` is `SSL_VERIFY_NONE` (the earlier `SSL_VERIFY_PEER`
setting is overridden), `DtlsHandshake::DoHandshakeAsServer` likewise sets
`SSL_VERIFY_NONE`, and the only verify callback in the sources,
`krx_ssl_verify_peer`, reports success even when chain validation failed
(`ok = 0`), so a certificate validation failure cannot drive the handshake to
the Failed outcome. -/
theorem certValidationStrictModeAbsent :
    dtlsDoHandshakeVerifyConfig.verifyMode = VerifyMode.verifyNone ∧
    dtlsDoHandshakeVerifyConfig.verifyMode ≠ VerifyMode.verifyPeer ∧
    dtlsHandshakeServerVerifyConfig.verifyMode = VerifyMode.verifyNone ∧
    krx_ssl_verify_peer 0 17 = 1 :=
  ⟨rfl, by decide, rfl, rfl⟩

/-- C8 (amended): the peer certificate validation policy is fixed, not
configurable: every handshake entry point ends with verify mode
`SSL_VERIFY_NONE` and no callback, the strict variant exists only as an
overridden call or a commented-out line, and the lone verify callback accepts
every certificate regardless of the validation result, so certificate
validation failure never drives the handshake to Failed. -/
theorem certValidationAcceptAnyFixed :
    dtlsDoHandshakeVerifyConfig.verifyMode = VerifyMode.verifyNone ∧
    dtlsDoHandshakeVerifyConfig.verifyCb = none ∧
    dtlsHandshakeServerVerifyConfig.verifyMode = VerifyMode.verifyNone ∧
    dtlsHandshakeClientVerifyConfig.verifyMode = VerifyMode.verifyNone ∧
    (∀ ok ctx : Nat, krx_ssl_verify_peer ok ctx = 1) :=
  ⟨rfl, rfl, rfl, rfl, fun _ _ => rfl⟩

/-- Counterexample for C9: constructing an `Srtp` from a session that has not
completed its handshake raises no InvalidState error: the constructor returns
normally (`Except.ok`) with a null internal session and only a printed
message, and the failure surfaces later, as an undefined call, when the
object is used. -/
theorem srtpConstructorSignalsNoError :
    srtpFromDtlsE notCompletedSession true =
      Except.ok { session := none, log := ["Export of SSL key information failed."] } ∧
    ProtectRTPOnObject (srtpFromDtls notCompletedSession true)
      { seq := 0, payload := [] } = none :=
  ⟨rfl, rfl⟩

/-- C9 (amended): for every non-completed session, the key material export
fails and the constructor creates no SRTP crypto context — the internal
session stays null and an error message is printed — but no InvalidState
error is signaled: the constructor returns a normally constructed object and
the failure is deferred to the first use of the object. -/
theorem srtpConstructorDefersExportFailure (d : DtlsSession) (c : Bool) (p : RtpPacket)
    (h : d.completed = false) :
    srtpFromDtlsE d c =
      Except.ok { session := none, log := ["Export of SSL key information failed."] } ∧
    ProtectRTPOnObject (srtpFromDtls d c) p = none := by
  have hobj : srtpFromDtls d c =
      { session := none, log := ["Export of SSL key information failed."] } := by
    simp [srtpFromDtls, sslExportKeyingMaterial, h]
  refine ⟨?_, ?_⟩
  · show Except.ok (srtpFromDtls d c) = _
    rw [hobj]
  · rw [hobj]
    rfl

/-- Witness for C9 (amended): the deferred failure evaluated on a concrete
non-completed session and a concrete packet. -/
theorem srtpConstructorDefersExportFailure_witness :
    notCompletedSession.completed = false ∧
    (srtpFromDtlsE notCompletedSession false =
       Except.ok { session := none, log := ["Export of SSL key information failed."] } ∧
     ProtectRTPOnObject (srtpFromDtls notCompletedSession false) rtpPacketSample = none) :=
  ⟨rfl, srtpConstructorDefersExportFailure notCompletedSession false rtpPacketSample rfl⟩

/-- C10: shutdown is idempotent: the first call nulls the internal state
pointer, a second call (including the one the destructor makes) is a no-op on
the already-shut-down object, and after shutdown `GetSSL` returns null rather
than a pointer to freed state. -/
theorem dtlsShutdownIdempotent (o : DtlsObj) :
    (Shutdown o).k = none ∧
    Shutdown (Shutdown o) = Shutdown o ∧
    dtlsDestructor (Shutdown o) = Shutdown o ∧
    GetSSL (Shutdown o) = none := by
  rcases o with ⟨k⟩
  cases k <;> simp [Shutdown, GetSSL, dtlsDestructor]
